import Mathlib

/-!
# Guess-the-word server: matchmaking and session engine

A shallow embedding of `server.js`.  The three module-level collections
(`waitingPlayers`, `activeGames`, `playerToGame`) form the server state; every
socket handler is a function from a state, the sending socket id and the
handler's argument to the next state together with the list of transport calls
(`join`, `io.to(..).emit`, `socket.emit`) the handler issues, in program order.

Conventions of the embedding:

* a JavaScript `Map` is an association list in insertion order (`mapGet`,
  `mapSet`, `mapDelete`);
* `null`/`undefined` is `none`; the truthiness tests of the source
  (`!gameId`, `!game.pendingQuestion`) are kept: the empty string is falsy;
* `Date.now()` and `Math.random() < 0.5` are inputs of a handler call (`Env`);
* handler arguments are strings, as the protocol declares them;
* `String.prototype.trim` is modelled exactly (`trim`), while
  `String.prototype.toLowerCase` (a Unicode table) is a parameter `lower` of
  the handlers that use it; `asciiLower` is the instance used on examples;
* `console.log` calls are omitted.
-/

namespace GuessTheWord

/-! ## JavaScript maps as association lists -/

/-- Model of `Map.prototype.get`: the value stored under `k`, if any. -/
def mapGet {V : Type} : List (String × V) → String → Option V
  | [], _ => none
  | (k', v) :: rest, k => if k' = k then some v else mapGet rest k

/-- Model of `Map.prototype.set`: overwrite in place when the key exists, append
otherwise. -/
def mapSet {V : Type} : List (String × V) → String → V → List (String × V)
  | [], k, v => [(k, v)]
  | (k', v') :: rest, k, v =>
    if k' = k then (k, v) :: rest else (k', v') :: mapSet rest k v

/-- Model of `Map.prototype.delete`: drop the entry stored under `k`. -/
def mapDelete {V : Type} (m : List (String × V)) (k : String) : List (String × V) :=
  m.filter (fun p => p.1 ≠ k)

/-! ## JavaScript strings -/

/-- JavaScript truthiness of a string: every string but the empty one. -/
def truthy (s : String) : Bool := s ≠ ""

/-- The code points `String.prototype.trim` strips: ECMAScript WhiteSpace and
LineTerminator. -/
def isWhiteSpace (c : Char) : Bool :=
  let n := c.toNat
  n = 0x9 || n = 0xA || n = 0xB || n = 0xC || n = 0xD || n = 0x20 || n = 0xA0 ||
  n = 0x1680 || (0x2000 ≤ n && n ≤ 0x200A) || n = 0x2028 || n = 0x2029 ||
  n = 0x202F || n = 0x205F || n = 0x3000 || n = 0xFEFF

/-- Model of `String.prototype.trim`: strip white space and line terminators from
both ends. -/
def trim (s : String) : String :=
  String.mk ((s.data.dropWhile isWhiteSpace).reverse.dropWhile isWhiteSpace).reverse

/-- Lower-casing of the letters `A`..`Z`, every other character kept: what
`String.prototype.toLowerCase` does on ASCII text. -/
def asciiLower (s : String) : String :=
  String.mk (s.data.map Char.toLower)

/-! ## Data model -/

/-- A transcript entry `{ type, text, timestamp }`. -/
structure Message where
  type : String
  text : String
  timestamp : Int
deriving DecidableEq

/-- The `game` object built by `find-match`. -/
structure Game where
  id : String
  player1 : String
  player2 : String
  secretWord : Option String
  messages : List Message
  startTime : Option Int
  pendingQuestion : Option String
deriving DecidableEq

/-- The module-level collections of the server. -/
structure ServerState where
  waitingPlayers : List String
  activeGames : List (String × Game)
  playerToGame : List (String × String)
deriving DecidableEq

/-- The state at process start: all three collections empty. -/
def ServerState.empty : ServerState :=
  { waitingPlayers := [], activeGames := [], playerToGame := [] }

/-- Event name and argument of an outbound `emit`. -/
inductive Payload where
  | waiting
  | matchFound (gameId : String) (role : String) (opponentId : String)
  | gameStarted (message : String)
  | newMessage (message : Message)
  | questionPending (question : String)
  | answerReceived
  | gameEnded (won : Bool) (word : Option String) (timeElapsed : Int)
  | opponentDisconnected
deriving DecidableEq

/-- A call on the transport made by a handler. -/
inductive Effect where
  /-- The call `io.sockets.sockets.get(socket).join(room)`. -/
  | join (socket : String) (room : String)
  /-- The call `io.to(target).emit(..)`; `target` is a game room or a socket id. -/
  | ioTo (target : String) (payload : Payload)
  /-- The call `socket.emit(..)` on the sending socket. -/
  | socketEmit (socket : String) (payload : Payload)
deriving DecidableEq

/-- The values a handler call reads from its environment. -/
structure Env where
  /-- Result of the first `Date.now()` call of the handler. -/
  now : Int
  /-- Result of the second `Date.now()` call (only a failed `make-guess` makes one). -/
  now2 : Int
  /-- Outcome of `Math.random() < 0.5`. -/
  isPlayer1 : Bool
deriving DecidableEq

/-- The inbound events of a socket. -/
inductive Event where
  | findMatch
  | setWord (word : String)
  | askQuestion (question : String)
  | answer (answer : String)
  | makeGuess (guess : String)
  | timeExpired
  | disconnect
deriving DecidableEq

/-- One handler call: the sending socket, the event and the environment values. -/
structure Input where
  socket : String
  event : Event
  env : Env
deriving DecidableEq

/-! ## Handlers -/

/-- The function `cleanupGame(gameId)`. -/
def cleanupGame (s : ServerState) (gameId : String) : ServerState :=
  match mapGet s.activeGames gameId with
  | none => s
  | some game =>
    { s with
      playerToGame := mapDelete (mapDelete s.playerToGame game.player1) game.player2
      activeGames := mapDelete s.activeGames gameId }

/-- Handler of `find-match`. -/
def findMatch (s : ServerState) (socketId : String) (env : Env) :
    ServerState × List Effect :=
  match s.waitingPlayers with
  | opponent :: rest =>
    let gameId := "game-" ++ toString env.now
    let player1 := if env.isPlayer1 then socketId else opponent
    let player2 := if env.isPlayer1 then opponent else socketId
    let game : Game :=
      { id := gameId, player1 := player1, player2 := player2, secretWord := none,
        messages := [], startTime := none, pendingQuestion := none }
    ({ waitingPlayers := rest
       activeGames := mapSet s.activeGames gameId game
       playerToGame := mapSet (mapSet s.playerToGame player1 gameId) player2 gameId },
     [Effect.join player1 gameId, Effect.join player2 gameId,
      Effect.ioTo player1 (Payload.matchFound gameId "player1" player2),
      Effect.ioTo player2 (Payload.matchFound gameId "player2" player1)])
  | [] =>
    ({ s with waitingPlayers := s.waitingPlayers ++ [socketId] },
     [Effect.socketEmit socketId Payload.waiting])

/-- Handler of `set-word`. -/
def setWord (lower : String → String) (s : ServerState) (socketId word : String)
    (env : Env) : ServerState × List Effect :=
  match mapGet s.playerToGame socketId with
  | none => (s, [])
  | some gameId =>
    if !truthy gameId then (s, []) else
    match mapGet s.activeGames gameId with
    | none => (s, [])
    | some game =>
      if game.player1 ≠ socketId then (s, []) else
      let game1 := { game with
        secretWord := some (lower (trim word)), startTime := some env.now }
      ({ s with activeGames := mapSet s.activeGames gameId game1 },
       [Effect.ioTo gameId (Payload.gameStarted
          "Game started! Player 2 has 3 minutes to guess the word.")])

/-- Handler of `ask-question`. -/
def askQuestion (s : ServerState) (socketId question : String) (env : Env) :
    ServerState × List Effect :=
  match mapGet s.playerToGame socketId with
  | none => (s, [])
  | some gameId =>
    if !truthy gameId then (s, []) else
    match mapGet s.activeGames gameId with
    | none => (s, [])
    | some game =>
      if game.player2 ≠ socketId then (s, []) else
      let message : Message :=
        { type := "player2", text := question, timestamp := env.now }
      let game1 := { game with
        messages := game.messages ++ [message], pendingQuestion := some question }
      ({ s with activeGames := mapSet s.activeGames gameId game1 },
       [Effect.ioTo gameId (Payload.newMessage message),
        Effect.ioTo game.player1 (Payload.questionPending question)])

/-- Truthiness of `game.pendingQuestion`: set and not the empty string. -/
def pendingTruthy (game : Game) : Bool :=
  match game.pendingQuestion with
  | none => false
  | some q => truthy q

/-- Handler of `answer`. -/
def answer (s : ServerState) (socketId answer : String) (env : Env) :
    ServerState × List Effect :=
  match mapGet s.playerToGame socketId with
  | none => (s, [])
  | some gameId =>
    if !truthy gameId then (s, []) else
    match mapGet s.activeGames gameId with
    | none => (s, [])
    | some game =>
      if game.player1 ≠ socketId || !pendingTruthy game then (s, []) else
      let message : Message :=
        { type := "player1", text := answer, timestamp := env.now }
      let game1 := { game with
        messages := game.messages ++ [message], pendingQuestion := none }
      ({ s with activeGames := mapSet s.activeGames gameId game1 },
       [Effect.ioTo gameId (Payload.newMessage message),
        Effect.ioTo game.player2 Payload.answerReceived])

/-- Handler of `make-guess`.  In the arithmetic `Date.now() - game.startTime` a
`null` start time counts as `0`; `Math.floor(x / 1000)` is floor division. -/
def makeGuess (lower : String → String) (s : ServerState) (socketId guess : String)
    (env : Env) : ServerState × List Effect :=
  match mapGet s.playerToGame socketId with
  | none => (s, [])
  | some gameId =>
    if !truthy gameId then (s, []) else
    match mapGet s.activeGames gameId with
    | none => (s, [])
    | some game =>
      if game.player2 ≠ socketId then (s, []) else
      let isCorrect : Bool := some (lower (trim guess)) = game.secretWord
      if isCorrect then
        let timeElapsed := Int.fdiv (env.now - game.startTime.getD 0) 1000
        (cleanupGame s gameId,
         [Effect.ioTo gameId (Payload.gameEnded true game.secretWord timeElapsed)])
      else
        let wrongMessage : Message :=
          { type := "player2", text := "Is it \"" ++ guess ++ "\"?", timestamp := env.now }
        let noMessage : Message :=
          { type := "player1", text := "No", timestamp := env.now2 }
        let game1 := { game with messages := game.messages ++ [wrongMessage, noMessage] }
        ({ s with activeGames := mapSet s.activeGames gameId game1 },
         [Effect.ioTo gameId (Payload.newMessage wrongMessage),
          Effect.ioTo gameId (Payload.newMessage noMessage)])

/-- Handler of `time-expired`. -/
def timeExpired (s : ServerState) (socketId : String) : ServerState × List Effect :=
  match mapGet s.playerToGame socketId with
  | none => (s, [])
  | some gameId =>
    if !truthy gameId then (s, []) else
    match mapGet s.activeGames gameId with
    | none => (s, [])
    | some game =>
      (cleanupGame s gameId,
       [Effect.ioTo gameId (Payload.gameEnded false game.secretWord 180)])

/-- Handler of `disconnect`: `indexOf` + `splice(index, 1)` erase the first
occurrence of the socket in the queue, then the socket's game, if any, ends. -/
def disconnect (s : ServerState) (socketId : String) : ServerState × List Effect :=
  let s1 := { s with waitingPlayers := s.waitingPlayers.erase socketId }
  match mapGet s1.playerToGame socketId with
  | none => (s1, [])
  | some gameId =>
    if !truthy gameId then (s1, []) else
    match mapGet s1.activeGames gameId with
    | none => (s1, [])
    | some game =>
      let opponentId := if game.player1 = socketId then game.player2 else game.player1
      (cleanupGame s1 gameId, [Effect.ioTo opponentId Payload.opponentDisconnected])

/-- Dispatch of one inbound event to its handler. -/
def step (lower : String → String) (s : ServerState) (i : Input) :
    ServerState × List Effect :=
  match i.event with
  | Event.findMatch => findMatch s i.socket i.env
  | Event.setWord word => setWord lower s i.socket word i.env
  | Event.askQuestion question => askQuestion s i.socket question i.env
  | Event.answer a => answer s i.socket a i.env
  | Event.makeGuess guess => makeGuess lower s i.socket guess i.env
  | Event.timeExpired => timeExpired s i.socket
  | Event.disconnect => disconnect s i.socket

/-- The state after processing a sequence of events one at a time. -/
def run (lower : String → String) (s : ServerState) : List Input → ServerState
  | [] => s
  | i :: rest => run lower (step lower s i).1 rest

/-! ## Predicates and sample traces used by the theorems -/

/-- Whether `c` is one of the two players of `g`. -/
def isParticipant (c : String) (g : Game) : Bool :=
  g.player1 = c || g.player2 = c

/-- Trace discipline: every `find-match` comes from a socket that has no entry in
`playerToGame` at that moment. -/
def findMatchUnmatched (lower : String → String) : ServerState → List Input → Bool
  | _, [] => true
  | s, i :: rest =>
    decide (i.event = Event.findMatch → mapGet s.playerToGame i.socket = none) &&
      findMatchUnmatched lower (step lower s i).1 rest

/-- Trace discipline: every `find-match` comes from a socket that at that moment is
neither queued nor a key of `playerToGame`. -/
def findMatchFresh (lower : String → String) : ServerState → List Input → Bool
  | _, [] => true
  | s, i :: rest =>
    decide (i.event = Event.findMatch →
      i.socket ∉ s.waitingPlayers ∧ mapGet s.playerToGame i.socket = none) &&
      findMatchFresh lower (step lower s i).1 rest

/-- The queue holds at most one socket, and no queued socket has a directory entry. -/
def QueueInv (s : ServerState) : Prop :=
  s.waitingPlayers.length ≤ 1 ∧ ∀ c ∈ s.waitingPlayers, mapGet s.playerToGame c = none

/-- State `s2` has no more queued sockets and no more directory keys than `s1`. -/
def Shrinks (s1 s2 : ServerState) : Prop :=
  s2.waitingPlayers.length ≤ s1.waitingPlayers.length ∧
  (∀ c, c ∈ s2.waitingPlayers → c ∈ s1.waitingPlayers) ∧
  ∀ c, mapGet s1.playerToGame c = none → mapGet s2.playerToGame c = none

/-- Every game of the directory is registered under both of its players, who differ,
and the keys of `activeGames` are pairwise distinct. -/
def GameInv (s : ServerState) : Prop :=
  (s.activeGames.map Prod.fst).Nodup ∧
  ∀ k g, mapGet s.activeGames k = some g →
    mapGet s.playerToGame g.player1 = some k ∧ mapGet s.playerToGame g.player2 = some k ∧
      g.player1 ≠ g.player2

/-- What the in-game handlers can do to the state: nothing, replace one game by a game
with the same players, or tear one game down. -/
def LocalStep (s1 s2 : ServerState) : Prop :=
  s2 = s1 ∨
  (∃ gameId game game1, mapGet s1.activeGames gameId = some game ∧
      game1.player1 = game.player1 ∧ game1.player2 = game.player2 ∧
      s2 = { s1 with activeGames := mapSet s1.activeGames gameId game1 }) ∨
  ∃ gameId, s2 = cleanupGame s1 gameId

/-- Environment of a handler call at clock value `t` with coin outcome `coin`. -/
def envAt (t : Int) (coin : Bool) : Env :=
  { now := t, now2 := t, isPlayer1 := coin }

/-- Sockets `a` and `b` are matched, then `a` sends `find-match` once more. -/
def traceRejoin : List Input :=
  [⟨"a", Event.findMatch, envAt 1000 true⟩, ⟨"b", Event.findMatch, envAt 2000 true⟩,
   ⟨"a", Event.findMatch, envAt 3000 true⟩]

/-- Sockets `a` and `b` are matched and start playing, then `c` asks for a match. -/
def traceThird : List Input :=
  [⟨"a", Event.findMatch, envAt 1000 true⟩, ⟨"b", Event.findMatch, envAt 2000 true⟩,
   ⟨"b", Event.setWord "Elephant", envAt 3000 true⟩,
   ⟨"a", Event.askQuestion "Is it an animal?", envAt 4000 true⟩,
   ⟨"c", Event.findMatch, envAt 5000 true⟩]

/-- Socket `a` sends `find-match` twice in a row. -/
def traceSelf : List Input :=
  [⟨"a", Event.findMatch, envAt 1000 true⟩, ⟨"a", Event.findMatch, envAt 2000 true⟩]

/-- Sockets `a` and `b` are matched, `a` queues again and is matched with `c`. -/
def traceTwoGames : List Input :=
  traceRejoin ++ [⟨"c", Event.findMatch, envAt 4000 true⟩]

/-- Two matches one after the other: `a` with `b`, then `c` with `d`. -/
def traceTwoPairs : List Input :=
  [⟨"a", Event.findMatch, envAt 1000 true⟩, ⟨"b", Event.findMatch, envAt 2000 true⟩,
   ⟨"c", Event.findMatch, envAt 3000 false⟩, ⟨"d", Event.findMatch, envAt 4000 false⟩]

/-- The game of `c` and `d` in `traceTwoPairs`. -/
def gameCD : Game :=
  { id := "game-4000", player1 := "c", player2 := "d", secretWord := none,
    messages := [], startTime := none, pendingQuestion := none }

/-- The lookup every in-game handler starts with: the game id `playerToGame` holds for
the socket, when it is truthy, and the game `activeGames` holds under that id. -/
def sessionOf (s : ServerState) (socketId : String) : Option (String × Game) :=
  match mapGet s.playerToGame socketId with
  | none => none
  | some gameId =>
    if !truthy gameId then none else
    match mapGet s.activeGames gameId with
    | none => none
    | some game => some (gameId, game)

/-- Whether the socket is `player1` of the game the directory gives for it. -/
def isSetter (s : ServerState) (socketId : String) : Bool :=
  match sessionOf s socketId with
  | none => false
  | some (_, game) => game.player1 = socketId

/-- Whether the socket is `player2` of the game the directory gives for it. -/
def isGuesser (s : ServerState) (socketId : String) : Bool :=
  match sessionOf s socketId with
  | none => false
  | some (_, game) => game.player2 = socketId

/-- The state after `a` and `b` are matched (`b` is `player1`, `a` is `player2`): the
session is in Setup. -/
def stateSetup : ServerState :=
  run asciiLower ServerState.empty
    [⟨"a", Event.findMatch, envAt 1000 true⟩, ⟨"b", Event.findMatch, envAt 2000 true⟩]

/-- The state after the setter `b` has committed the word `Elephant`. -/
def statePlaying : ServerState :=
  (step asciiLower stateSetup ⟨"b", Event.setWord "Elephant", envAt 3000 true⟩).1

/-- The state after the guesser `a` has asked a first question, not yet answered. -/
def stateAsked : ServerState :=
  (step asciiLower statePlaying ⟨"a", Event.askQuestion "Is it an animal?", envAt 4000 true⟩).1

/-- Whether some emitted event is `game-ended` with `won: true`. -/
def emitsWin (effects : List Effect) : Bool :=
  effects.any fun e =>
    match e with
    | Effect.ioTo _ (Payload.gameEnded true _ _) => true
    | Effect.socketEmit _ (Payload.gameEnded true _ _) => true
    | _ => false

/-- The game of `stateSetup`: `b` is the setter, `a` the guesser, no word yet. -/
def gameSetup : Game :=
  { id := "game-2000", player1 := "b", player2 := "a", secretWord := none,
    messages := [], startTime := none, pendingQuestion := none }

/-- The events that end `game`: a matching guess from its guesser, and `time-expired`
or `disconnect` from either player. -/
def isEnding (lower : String → String) (game : Game) (i : Input) : Bool :=
  match i.event with
  | Event.makeGuess guess =>
    i.socket = game.player2 && some (lower (trim guess)) = game.secretWord
  | Event.timeExpired => i.socket = game.player1 || i.socket = game.player2
  | Event.disconnect => i.socket = game.player1 || i.socket = game.player2
  | _ => false

/-- The state of `traceRejoin`: `b` and `a` play `game-2000` and `a` is queued too. -/
def stateRejoin : ServerState :=
  run asciiLower ServerState.empty traceRejoin

/-- The game of `statePlaying`: the word `elephant` was committed at clock 3000. -/
def gamePlaying : Game :=
  { gameSetup with secretWord := some "elephant", startTime := some 3000 }

/-- The game of `stateAsked`: the guesser's first question is unanswered. -/
def gameAsked : Game :=
  { gamePlaying with
    messages := [{ type := "player2", text := "Is it an animal?", timestamp := 4000 }]
    pendingQuestion := some "Is it an animal?" }

/-! ## Lemmas on maps -/

theorem mapGet_mapSet_self {V : Type} (m : List (String × V)) (k : String) (v : V) :
    mapGet (mapSet m k v) k = some v := by
  induction m with
  | nil => simp [mapSet, mapGet]
  | cons p rest ih =>
    obtain ⟨k', v'⟩ := p
    by_cases h : k' = k
    · simp [mapSet, mapGet, h]
    · simp [mapSet, mapGet, h, ih]

theorem mapGet_mapSet_ne {V : Type} (m : List (String × V)) (k k2 : String) (v : V)
    (hne : k ≠ k2) : mapGet (mapSet m k v) k2 = mapGet m k2 := by
  induction m with
  | nil => simp [mapSet, mapGet, hne]
  | cons p rest ih =>
    obtain ⟨k', v'⟩ := p
    by_cases h : k' = k
    · subst h
      simp [mapSet, mapGet, hne]
    · by_cases h2 : k' = k2
      · subst h2
        simp [mapSet, mapGet, h]
      · simp [mapSet, mapGet, h, h2, ih]

theorem mapGet_mapDelete_self {V : Type} (m : List (String × V)) (k : String) :
    mapGet (mapDelete m k) k = none := by
  induction m with
  | nil => simp [mapDelete, mapGet]
  | cons p rest ih =>
    obtain ⟨k', v'⟩ := p
    by_cases h : k' = k
    · simpa [mapDelete, h] using ih
    · simpa [mapDelete, h, mapGet] using ih

theorem mapGet_mapDelete_ne {V : Type} (m : List (String × V)) (k k2 : String)
    (hne : k ≠ k2) : mapGet (mapDelete m k) k2 = mapGet m k2 := by
  induction m with
  | nil => simp [mapDelete, mapGet]
  | cons p rest ih =>
    obtain ⟨k', v'⟩ := p
    by_cases h : k' = k
    · subst h
      simpa [mapDelete, mapGet, hne] using ih
    · by_cases h2 : k' = k2
      · subst h2
        simp [mapDelete, mapGet, h]
      · simpa [mapDelete, mapGet, h, h2] using ih

theorem mapGet_mapDelete_of_none {V : Type} (m : List (String × V)) (k k2 : String)
    (h : mapGet m k2 = none) : mapGet (mapDelete m k) k2 = none := by
  by_cases hk : k = k2
  · subst hk; exact mapGet_mapDelete_self m k
  · rw [mapGet_mapDelete_ne m k k2 hk]; exact h

theorem mapSet_keys_nodup {V : Type} (m : List (String × V)) (k : String) (v : V)
    (h : (m.map Prod.fst).Nodup) : ((mapSet m k v).map Prod.fst).Nodup := by
  have hmem : ∀ (m : List (String × V)) x, x ∈ (mapSet m k v).map Prod.fst →
      x = k ∨ x ∈ m.map Prod.fst := by
    intro m
    induction m with
    | nil => intro x hx; simpa [mapSet] using hx
    | cons p rest ih =>
      intro x hx
      obtain ⟨k', v'⟩ := p
      by_cases hk : k' = k
      · subst hk
        simpa [mapSet] using hx
      · simp only [mapSet, hk, if_false, List.map_cons, List.mem_cons] at hx
        rcases hx with hx | hx
        · right; simp [hx]
        · rcases ih x hx with h1 | h1
          · left; exact h1
          · right; simp only [List.map_cons, List.mem_cons]; right; exact h1
  induction m with
  | nil => simp [mapSet]
  | cons p rest ih =>
    obtain ⟨k', v'⟩ := p
    simp only [List.map_cons, List.nodup_cons] at h
    by_cases hk : k' = k
    · subst hk
      simpa [mapSet] using h
    · simp only [mapSet, hk, if_false, List.map_cons, List.nodup_cons]
      refine ⟨fun hx => ?_, ih h.2⟩
      rcases hmem rest k' hx with h1 | h1
      · exact hk h1
      · exact h.1 h1

theorem mapDelete_keys_nodup {V : Type} (m : List (String × V)) (k : String)
    (h : (m.map Prod.fst).Nodup) : ((mapDelete m k).map Prod.fst).Nodup := by
  unfold mapDelete
  exact (List.Nodup.sublist (List.Sublist.map _ (List.filter_sublist m)) h)

theorem mapGet_of_mem {V : Type} (m : List (String × V)) (k : String) (v : V)
    (h : (m.map Prod.fst).Nodup) (hm : (k, v) ∈ m) : mapGet m k = some v := by
  induction m with
  | nil => simp at hm
  | cons p rest ih =>
    obtain ⟨k', v'⟩ := p
    simp only [List.map_cons, List.nodup_cons] at h
    simp only [List.mem_cons, Prod.mk.injEq] at hm
    rcases hm with ⟨h1, h2⟩ | hm
    · subst h1; subst h2
      simp [mapGet]
    · have hne : k' ≠ k := by
        intro he
        subst he
        exact h.1 (List.mem_map.mpr ⟨(k', v), hm, rfl⟩)
      simp [mapGet, hne, ih h.2 hm]


/-! ## Invariants of the matchmaking queue and the directory -/

theorem Shrinks.refl (s : ServerState) : Shrinks s s :=
  ⟨le_refl _, fun _ h => h, fun _ h => h⟩

theorem Shrinks.trans {s1 s2 s3 : ServerState} (h12 : Shrinks s1 s2) (h23 : Shrinks s2 s3) :
    Shrinks s1 s3 :=
  ⟨le_trans h23.1 h12.1, fun c h => h12.2.1 c (h23.2.1 c h), fun c h => h23.2.2 c (h12.2.2 c h)⟩

theorem QueueInv.of_shrinks {s1 s2 : ServerState} (h : QueueInv s1) (hs : Shrinks s1 s2) :
    QueueInv s2 :=
  ⟨le_trans hs.1 h.1, fun c hc => hs.2.2 c (h.2 c (hs.2.1 c hc))⟩

theorem cleanupGame_shrinks (s : ServerState) (gameId : String) :
    Shrinks s (cleanupGame s gameId) := by
  unfold cleanupGame
  split
  · exact Shrinks.refl s
  · refine ⟨le_refl _, fun _ h => h, fun c h => ?_⟩
    exact mapGet_mapDelete_of_none _ _ _ (mapGet_mapDelete_of_none _ _ _ h)

theorem setWord_shrinks (lower : String → String) (s : ServerState) (c w : String) (env : Env) :
    Shrinks s (setWord lower s c w env).1 := by
  unfold setWord
  repeat' split
  all_goals exact Shrinks.refl s

theorem askQuestion_shrinks (s : ServerState) (c q : String) (env : Env) :
    Shrinks s (askQuestion s c q env).1 := by
  unfold askQuestion
  repeat' split
  all_goals exact Shrinks.refl s

theorem answer_shrinks (s : ServerState) (c a : String) (env : Env) :
    Shrinks s (answer s c a env).1 := by
  unfold answer
  repeat' split
  all_goals exact Shrinks.refl s

theorem makeGuess_shrinks (lower : String → String) (s : ServerState) (c g : String) (env : Env) :
    Shrinks s (makeGuess lower s c g env).1 := by
  unfold makeGuess
  dsimp only
  repeat' split
  all_goals first | exact Shrinks.refl s | exact cleanupGame_shrinks s _

theorem timeExpired_shrinks (s : ServerState) (c : String) :
    Shrinks s (timeExpired s c).1 := by
  unfold timeExpired
  repeat' split
  all_goals first | exact Shrinks.refl s | exact cleanupGame_shrinks s _

theorem erase_shrinks (s : ServerState) (c : String) :
    Shrinks s { s with waitingPlayers := s.waitingPlayers.erase c } :=
  ⟨List.length_erase_le c s.waitingPlayers, fun _ h => List.mem_of_mem_erase h, fun _ h => h⟩

theorem disconnect_shrinks (s : ServerState) (c : String) :
    Shrinks s (disconnect s c).1 := by
  unfold disconnect
  dsimp only
  repeat' split
  all_goals first
    | exact erase_shrinks s c
    | exact Shrinks.trans (erase_shrinks s c) (cleanupGame_shrinks _ _)

theorem findMatch_queueInv (s : ServerState) (c : String) (env : Env) (h : QueueInv s)
    (hc : mapGet s.playerToGame c = none) : QueueInv (findMatch s c env).1 := by
  unfold findMatch
  split
  · rename_i opponent rest hw
    have hlen := h.1
    rw [hw] at hlen
    have hrest : rest = [] := by
      cases rest with
      | nil => rfl
      | cons x xs => simp at hlen
    subst hrest
    exact ⟨by simp, by simp⟩
  · rename_i hw
    refine ⟨by simp [hw], ?_⟩
    intro x hx
    simp [hw] at hx
    subst hx
    exact hc

theorem step_queueInv (lower : String → String) (s : ServerState) (i : Input) (h : QueueInv s)
    (hc : i.event = Event.findMatch → mapGet s.playerToGame i.socket = none) :
    QueueInv (step lower s i).1 := by
  unfold step
  split
  · rename_i he
    exact findMatch_queueInv s _ _ h (hc he)
  · exact h.of_shrinks (setWord_shrinks _ _ _ _ _)
  · exact h.of_shrinks (askQuestion_shrinks _ _ _ _)
  · exact h.of_shrinks (answer_shrinks _ _ _ _)
  · exact h.of_shrinks (makeGuess_shrinks _ _ _ _ _)
  · exact h.of_shrinks (timeExpired_shrinks _ _)
  · exact h.of_shrinks (disconnect_shrinks _ _)

theorem run_queueInv (lower : String → String) (inputs : List Input) :
    ∀ s : ServerState, QueueInv s → findMatchUnmatched lower s inputs = true →
      QueueInv (run lower s inputs) := by
  induction inputs with
  | nil => intro s h _; exact h
  | cons i rest ih =>
    intro s h hd
    simp only [findMatchUnmatched, Bool.and_eq_true, decide_eq_true_eq] at hd
    exact ih _ (step_queueInv lower s i h hd.1) hd.2

theorem queueInv_empty : QueueInv ServerState.empty :=
  ⟨by simp [ServerState.empty], by simp [ServerState.empty]⟩


theorem LocalStep.update (s : ServerState) (gameId : String) (game game1 : Game)
    (hg : mapGet s.activeGames gameId = some game) (h1 : game1.player1 = game.player1)
    (h2 : game1.player2 = game.player2) :
    LocalStep s { s with activeGames := mapSet s.activeGames gameId game1 } :=
  Or.inr (Or.inl ⟨gameId, game, game1, hg, h1, h2, rfl⟩)

theorem setWord_localStep (lower : String → String) (s : ServerState) (c w : String)
    (env : Env) : LocalStep s (setWord lower s c w env).1 := by
  unfold setWord
  dsimp only
  repeat' split
  all_goals first
    | exact Or.inl rfl
    | (rename_i game hg _; exact LocalStep.update s _ game _ hg rfl rfl)

theorem askQuestion_localStep (s : ServerState) (c q : String) (env : Env) :
    LocalStep s (askQuestion s c q env).1 := by
  unfold askQuestion
  dsimp only
  repeat' split
  all_goals first
    | exact Or.inl rfl
    | (rename_i game hg _; exact LocalStep.update s _ game _ hg rfl rfl)

theorem answer_localStep (s : ServerState) (c a : String) (env : Env) :
    LocalStep s (answer s c a env).1 := by
  unfold answer
  dsimp only
  repeat' split
  all_goals first
    | exact Or.inl rfl
    | (rename_i game hg _; exact LocalStep.update s _ game _ hg rfl rfl)

theorem makeGuess_localStep (lower : String → String) (s : ServerState) (c g : String)
    (env : Env) : LocalStep s (makeGuess lower s c g env).1 := by
  unfold makeGuess
  dsimp only
  repeat' split
  all_goals first
    | exact Or.inl rfl
    | (rename_i game hg _ _; exact LocalStep.update s _ game _ hg rfl rfl)
    | exact Or.inr (Or.inr ⟨_, rfl⟩)

theorem timeExpired_localStep (s : ServerState) (c : String) :
    LocalStep s (timeExpired s c).1 := by
  unfold timeExpired
  repeat' split
  all_goals first
    | exact Or.inl rfl
    | exact Or.inr (Or.inr ⟨_, rfl⟩)

theorem disconnect_localStep (s : ServerState) (c : String) :
    LocalStep { s with waitingPlayers := s.waitingPlayers.erase c } (disconnect s c).1 := by
  unfold disconnect
  dsimp only
  repeat' split
  all_goals first
    | exact Or.inl rfl
    | exact Or.inr (Or.inr ⟨_, rfl⟩)

theorem GameInv.of_queue (s : ServerState) (q : List String) (h : GameInv s) :
    GameInv { s with waitingPlayers := q } := h

theorem GameInv.cleanupGame {s : ServerState} (h : GameInv s) (gameId : String) :
    GameInv (cleanupGame s gameId) := by
  unfold GuessTheWord.cleanupGame
  split
  · exact h
  · rename_i game hg
    refine ⟨mapDelete_keys_nodup _ _ h.1, ?_⟩
    intro k g hk
    dsimp only at hk ⊢
    have hne : gameId ≠ k := by
      intro he
      subst he
      rw [mapGet_mapDelete_self] at hk
      exact Option.noConfusion hk
    rw [mapGet_mapDelete_ne _ _ _ hne] at hk
    obtain ⟨h1, h2, h3⟩ := h.2 k g hk
    obtain ⟨e1, e2, _⟩ := h.2 gameId game hg
    have d : ∀ p x, mapGet s.playerToGame p = some gameId → mapGet s.playerToGame x = some k →
        p ≠ x := by
      intro p x hp hx he
      subst he
      rw [hp] at hx
      exact hne (Option.some.inj hx)
    refine ⟨?_, ?_, h3⟩
    · rw [mapGet_mapDelete_ne _ _ _ (d _ _ e2 h1), mapGet_mapDelete_ne _ _ _ (d _ _ e1 h1)]
      exact h1
    · rw [mapGet_mapDelete_ne _ _ _ (d _ _ e2 h2), mapGet_mapDelete_ne _ _ _ (d _ _ e1 h2)]
      exact h2

theorem GameInv.of_localStep {s1 s2 : ServerState} (h : GameInv s1) (hs : LocalStep s1 s2) :
    GameInv s2 := by
  rcases hs with rfl | ⟨gameId, game, game1, hg, hp1, hp2, rfl⟩ | ⟨gameId, rfl⟩
  · exact h
  · refine ⟨mapSet_keys_nodup _ _ _ h.1, ?_⟩
    intro k g hk
    dsimp only at hk ⊢
    by_cases he : gameId = k
    · subst he
      rw [mapGet_mapSet_self] at hk
      cases hk
      rw [hp1, hp2]
      exact h.2 gameId game hg
    · rw [mapGet_mapSet_ne _ _ _ _ he] at hk
      exact h.2 k g hk
  · exact h.cleanupGame gameId

theorem findMatch_gameInv (s : ServerState) (c : String) (env : Env) (hq : QueueInv s)
    (h : GameInv s) (hw : c ∉ s.waitingPlayers) (hc : mapGet s.playerToGame c = none) :
    GameInv (findMatch s c env).1 := by
  unfold findMatch
  split
  · rename_i opponent rest hwp
    dsimp only
    have ho : mapGet s.playerToGame opponent = none := hq.2 opponent (by simp [hwp])
    have hne : c ≠ opponent := by
      intro he
      subst he
      exact hw (by simp [hwp])
    refine ⟨mapSet_keys_nodup _ _ _ h.1, ?_⟩
    intro k g hk
    by_cases he : ("game-" ++ toString env.now) = k
    · subst he
      rw [mapGet_mapSet_self] at hk
      cases hk
      dsimp only
      cases env.isPlayer1
      · simp only [Bool.false_eq_true, if_false]
        exact ⟨by rw [mapGet_mapSet_ne _ _ _ _ hne, mapGet_mapSet_self],
          mapGet_mapSet_self _ _ _, hne.symm⟩
      · simp only [if_true]
        exact ⟨by rw [mapGet_mapSet_ne _ _ _ _ hne.symm, mapGet_mapSet_self],
          mapGet_mapSet_self _ _ _, hne⟩
    · rw [mapGet_mapSet_ne _ _ _ _ he] at hk
      obtain ⟨h1, h2, h3⟩ := h.2 k g hk
      have d : ∀ p x, mapGet s.playerToGame p = none → mapGet s.playerToGame x = some k →
          p ≠ x := by
        intro p x hp hx he2
        subst he2
        rw [hp] at hx
        exact Option.noConfusion hx
      have key : ∀ x, mapGet s.playerToGame x = some k →
          mapGet (mapSet (mapSet s.playerToGame (if env.isPlayer1 then c else opponent)
            ("game-" ++ toString env.now)) (if env.isPlayer1 then opponent else c)
            ("game-" ++ toString env.now)) x = some k := by
        intro x hx
        cases env.isPlayer1
        · simp only [Bool.false_eq_true, if_false]
          rw [mapGet_mapSet_ne _ _ _ _ (d _ _ hc hx), mapGet_mapSet_ne _ _ _ _ (d _ _ ho hx)]
          exact hx
        · simp only [if_true]
          rw [mapGet_mapSet_ne _ _ _ _ (d _ _ ho hx), mapGet_mapSet_ne _ _ _ _ (d _ _ hc hx)]
          exact hx
      exact ⟨key _ h1, key _ h2, h3⟩
  · exact h

theorem step_gameInv (lower : String → String) (s : ServerState) (i : Input) (hq : QueueInv s)
    (h : GameInv s)
    (hc : i.event = Event.findMatch →
      i.socket ∉ s.waitingPlayers ∧ mapGet s.playerToGame i.socket = none) :
    GameInv (step lower s i).1 := by
  unfold step
  split
  · rename_i he
    exact findMatch_gameInv s _ _ hq h (hc he).1 (hc he).2
  · exact h.of_localStep (setWord_localStep _ _ _ _ _)
  · exact h.of_localStep (askQuestion_localStep _ _ _ _)
  · exact h.of_localStep (answer_localStep _ _ _ _)
  · exact h.of_localStep (makeGuess_localStep _ _ _ _ _)
  · exact h.of_localStep (timeExpired_localStep _ _)
  · exact (GameInv.of_queue s _ h).of_localStep (disconnect_localStep _ _)

theorem run_gameInv (lower : String → String) (inputs : List Input) :
    ∀ s : ServerState, QueueInv s → GameInv s → findMatchFresh lower s inputs = true →
      GameInv (run lower s inputs) := by
  induction inputs with
  | nil => intro s _ h _; exact h
  | cons i rest ih =>
    intro s hq h hd
    simp only [findMatchFresh, Bool.and_eq_true, decide_eq_true_eq] at hd
    exact ih _ (step_queueInv lower s i hq (fun he => (hd.1 he).2))
      (step_gameInv lower s i hq h hd.1) hd.2

theorem gameInv_empty : GameInv ServerState.empty :=
  ⟨by simp [ServerState.empty], by simp [ServerState.empty, mapGet]⟩

theorem findMatchUnmatched_of_fresh (lower : String → String) (inputs : List Input) :
    ∀ s : ServerState, findMatchFresh lower s inputs = true →
      findMatchUnmatched lower s inputs = true := by
  induction inputs with
  | nil => intro s _; rfl
  | cons i rest ih =>
    intro s hd
    simp only [findMatchFresh, Bool.and_eq_true, decide_eq_true_eq] at hd
    simp only [findMatchUnmatched, Bool.and_eq_true, decide_eq_true_eq]
    exact ⟨fun he => (hd.1 he).2, ih _ hd.2⟩

/-! ## C1: queue/session exclusivity -/

/-- C1, as stated, fails: after `a` and `b` are matched, a further `find-match` from
`a` queues `a` while `playerToGame` still maps `a` to the game, of which `a` is a
player. -/
theorem c1_rejoin_queued_and_in_session :
    "a" ∈ (run asciiLower ServerState.empty traceRejoin).waitingPlayers ∧
    mapGet (run asciiLower ServerState.empty traceRejoin).playerToGame "a" =
      some "game-2000" ∧
    (mapGet (run asciiLower ServerState.empty traceRejoin).activeGames "game-2000").map
      (isParticipant "a") = some true := by
  decide

/-- C1, amended: in every state reached from the empty state by a sequence of events
in which each `find-match` comes from a socket that has no `playerToGame` entry at
that moment, no socket is both in `waitingPlayers` and a key of `playerToGame`. -/
theorem c1_queue_session_exclusive (lower : String → String) (inputs : List Input)
    (h : findMatchUnmatched lower ServerState.empty inputs = true) (c : String)
    (hc : c ∈ (run lower ServerState.empty inputs).waitingPlayers) :
    mapGet (run lower ServerState.empty inputs).playerToGame c = none :=
  (run_queueInv lower inputs ServerState.empty queueInv_empty h).2 c hc

/-- C1, amended, on a trace: `c` waits while `a` and `b` play. -/
theorem c1_queue_session_exclusive_witness :
    "c" ∈ (run asciiLower ServerState.empty traceThird).waitingPlayers ∧
    mapGet (run asciiLower ServerState.empty traceThird).playerToGame "c" = none :=
  ⟨by decide, c1_queue_session_exclusive asciiLower traceThird (by decide) "c" (by decide)⟩

/-! ## C2: one session per connection -/

/-- C2, as stated, fails: two `find-match` events in a row from `a` create a game
whose two players are both `a`; and after `a`, matched with `b`, queues again and
is matched with `c`, `activeGames` holds two games with `a` as a player. -/
theorem c2_self_match_and_two_games :
    (mapGet (run asciiLower ServerState.empty traceSelf).activeGames "game-2000").map
      (fun g => (g.player1, g.player2)) = some ("a", "a") ∧
    ((run asciiLower ServerState.empty traceTwoGames).activeGames.filter
      (fun e => isParticipant "a" e.2)).map Prod.fst = ["game-2000", "game-4000"] := by
  decide

/-- C2, amended: in every state reached from the empty state by a sequence of events
in which each `find-match` comes from a socket that at that moment is neither queued
nor a key of `playerToGame`, every socket is a player of at most one entry of
`activeGames`, and no game has the same socket as `player1` and `player2`. -/
theorem c2_one_session_per_connection (lower : String → String) (inputs : List Input)
    (h : findMatchFresh lower ServerState.empty inputs = true) :
    (∀ c e1 e2, e1 ∈ (run lower ServerState.empty inputs).activeGames →
      e2 ∈ (run lower ServerState.empty inputs).activeGames →
      isParticipant c e1.2 = true → isParticipant c e2.2 = true → e1 = e2) ∧
    ∀ e, e ∈ (run lower ServerState.empty inputs).activeGames →
      e.2.player1 ≠ e.2.player2 := by
  have hu : findMatchUnmatched lower ServerState.empty inputs = true :=
    findMatchUnmatched_of_fresh lower inputs ServerState.empty h
  have hq := run_queueInv lower inputs ServerState.empty queueInv_empty hu
  have hg := run_gameInv lower inputs ServerState.empty queueInv_empty gameInv_empty h
  have key : ∀ (c : String) (e : String × Game),
      e ∈ (run lower ServerState.empty inputs).activeGames → isParticipant c e.2 = true →
      mapGet (run lower ServerState.empty inputs).playerToGame c = some e.1 := by
    intro c e he hp
    obtain ⟨k, g⟩ := e
    obtain ⟨h1, h2, _⟩ := hg.2 k g (mapGet_of_mem _ k g hg.1 he)
    simp only [isParticipant, Bool.or_eq_true, decide_eq_true_eq] at hp
    rcases hp with hp | hp
    · rw [← hp]; exact h1
    · rw [← hp]; exact h2
  refine ⟨?_, ?_⟩
  · intro c e1 e2 he1 he2 hp1 hp2
    have hk : e1.1 = e2.1 := by
      have a1 := key c e1 he1 hp1
      have a2 := key c e2 he2 hp2
      rw [a1] at a2
      exact Option.some.inj a2
    obtain ⟨k1, g1⟩ := e1
    obtain ⟨k2, g2⟩ := e2
    simp only at hk
    subst hk
    have b1 := mapGet_of_mem _ k1 g1 hg.1 he1
    have b2 := mapGet_of_mem _ k1 g2 hg.1 he2
    rw [b1] at b2
    rw [Option.some.inj b2]
  · intro e he
    obtain ⟨k, g⟩ := e
    exact (hg.2 k g (mapGet_of_mem _ k g hg.1 he)).2.2

/-- C2, amended, on a trace with two matches (`a` with `b`, then `c` with `d`): the
trace obeys the discipline, and the two players of the second game differ. -/
theorem c2_one_session_per_connection_witness :
    findMatchFresh asciiLower ServerState.empty traceTwoPairs = true ∧
    ("game-4000", gameCD) ∈ (run asciiLower ServerState.empty traceTwoPairs).activeGames ∧
    gameCD.player1 ≠ gameCD.player2 :=
  ⟨by decide, by decide,
    (c2_one_session_per_connection asciiLower traceTwoPairs (by decide)).2
      ("game-4000", gameCD) (by decide)⟩

/-! ## The handlers on a socket with or without a session -/

theorem sessionOf_eq_some {s : ServerState} {c gameId : String} {game : Game}
    (h : sessionOf s c = some (gameId, game)) :
    mapGet s.playerToGame c = some gameId ∧ truthy gameId = true ∧
      mapGet s.activeGames gameId = some game := by
  unfold sessionOf at h
  split at h
  · exact Option.noConfusion h
  · rename_i gid hgid
    split at h
    · exact Option.noConfusion h
    · rename_i ht
      split at h
      · exact Option.noConfusion h
      · rename_i g hg
        cases h
        exact ⟨hgid, by simpa using ht, hg⟩

theorem sessionOf_of_lookup {s : ServerState} {c gameId : String} {game : Game}
    (h1 : mapGet s.playerToGame c = some gameId) (h2 : gameId ≠ "")
    (h3 : mapGet s.activeGames gameId = some game) : sessionOf s c = some (gameId, game) := by
  simp [sessionOf, h1, h2, h3, truthy]

theorem setWord_of_not_setter (lower : String → String) (s : ServerState) (c w : String)
    (env : Env) (h : isSetter s c = false) : setWord lower s c w env = (s, []) := by
  unfold isSetter sessionOf at h
  unfold setWord
  repeat' split
  all_goals first
    | rfl
    | (simp_all)

theorem askQuestion_of_not_guesser (s : ServerState) (c q : String) (env : Env)
    (h : isGuesser s c = false) : askQuestion s c q env = (s, []) := by
  unfold isGuesser sessionOf at h
  unfold askQuestion
  repeat' split
  all_goals first
    | rfl
    | (simp_all)

theorem askQuestion_of_guesser (s : ServerState) (c q : String) (env : Env) (gameId : String)
    (game : Game) (h : sessionOf s c = some (gameId, game)) (hp : game.player2 = c) :
    askQuestion s c q env =
      ({ s with activeGames := mapSet s.activeGames gameId <|
          { game with
            messages := game.messages ++ [{ type := "player2", text := q, timestamp := env.now }]
            pendingQuestion := some q } },
       [Effect.ioTo gameId
          (Payload.newMessage { type := "player2", text := q, timestamp := env.now }),
        Effect.ioTo game.player1 (Payload.questionPending q)]) := by
  obtain ⟨h1, h2, h3⟩ := sessionOf_eq_some h
  simp [askQuestion, h1, h2, h3, hp]

theorem setWord_of_setter (lower : String → String) (s : ServerState) (c w : String)
    (env : Env) (gameId : String) (game : Game) (h : sessionOf s c = some (gameId, game))
    (hp : game.player1 = c) :
    setWord lower s c w env =
      ({ s with activeGames := mapSet s.activeGames gameId <|
          { game with secretWord := some (lower (trim w)), startTime := some env.now } },
       [Effect.ioTo gameId (Payload.gameStarted
          "Game started! Player 2 has 3 minutes to guess the word.")]) := by
  obtain ⟨h1, h2, h3⟩ := sessionOf_eq_some h
  simp [setWord, h1, h2, h3, hp]

/-! ## C3: turn enforcement for ask-question -/

/-- C3, as stated, fails: the guesser `a` asks while the word is not committed and the
question is recorded and broadcast; and the guesser asks a second question while the
first is unanswered, after which the transcript holds two guesser messages in a row. -/
theorem c3_ask_in_setup_and_while_pending :
    (askQuestion stateSetup "a" "Is it an animal?" (envAt 3000 true)).2 =
      [Effect.ioTo "game-2000" (Payload.newMessage
        { type := "player2", text := "Is it an animal?", timestamp := 3000 }),
       Effect.ioTo "b" (Payload.questionPending "Is it an animal?")] ∧
    (mapGet (askQuestion stateAsked "a" "Is it big?" (envAt 5000 true)).1.activeGames
      "game-2000").map (fun g => (g.messages.map Message.type, g.pendingQuestion)) =
      some (["player2", "player2"], some "Is it big?") := by
  decide

/-- C3, amended: an `ask-question` from a socket that is not the guesser (`player2`) of
the game the directory gives for it (no entry, game gone, or another role) leaves the
server state unchanged and emits nothing.  From the guesser of a session without
an unanswered question it is accepted, whether or not the word has been committed:
one `player2` message is appended, `pendingQuestion` is set, `new-message` goes to the
game room and `question-pending` to `player1`. -/
theorem c3_ask_question_guard (s : ServerState) (c q : String) (env : Env) :
    (isGuesser s c = false → askQuestion s c q env = (s, [])) ∧
    ∀ gameId game, sessionOf s c = some (gameId, game) → game.player2 = c →
      game.pendingQuestion = none →
      askQuestion s c q env =
        ({ s with activeGames := mapSet s.activeGames gameId <|
            { game with
              messages := game.messages ++
                [{ type := "player2", text := q, timestamp := env.now }]
              pendingQuestion := some q } },
         [Effect.ioTo gameId
            (Payload.newMessage { type := "player2", text := q, timestamp := env.now }),
          Effect.ioTo game.player1 (Payload.questionPending q)]) :=
  ⟨askQuestion_of_not_guesser s c q env,
   fun gameId game h hp _ => askQuestion_of_guesser s c q env gameId game h hp⟩

/-- C3, amended, on the playing state: an `ask-question` from the setter `b` changes
nothing. -/
theorem c3_ask_question_guard_witness :
    isGuesser statePlaying "b" = false ∧
    askQuestion statePlaying "b" "Is it an animal?" (envAt 4000 true) = (statePlaying, []) :=
  ⟨by decide,
   (c3_ask_question_guard statePlaying "b" "Is it an animal?" (envAt 4000 true)).1 (by decide)⟩

/-! ## C4: committing the secret word -/

/-- C4, as stated, fails: after the setter `b` has committed `Elephant`, a second
`set-word` from `b` replaces the word and the start time and `game-started` is
emitted again. -/
theorem c4_second_set_word_overwrites :
    (mapGet statePlaying.activeGames "game-2000").map
      (fun g => (g.secretWord, g.startTime)) = some (some "elephant", some 3000) ∧
    (mapGet (setWord asciiLower statePlaying "b" " Tiger" (envAt 9000 true)).1.activeGames
      "game-2000").map (fun g => (g.secretWord, g.startTime)) = some (some "tiger", some 9000) ∧
    (setWord asciiLower statePlaying "b" " Tiger" (envAt 9000 true)).2 =
      [Effect.ioTo "game-2000" (Payload.gameStarted
        "Game started! Player 2 has 3 minutes to guess the word.")] := by
  decide

/-- C4, amended: a `set-word` from a socket that is not the setter (`player1`) of the
game the directory gives for it is a no-op.  A `set-word` from the setter is processed
whether or not a word is already committed: `secretWord` becomes the trimmed,
lower-cased argument, `startTime` the current clock value, `game-started` goes to the
game room, and nothing else in the state changes. -/
theorem c4_set_word (lower : String → String) (s : ServerState) (c w : String) (env : Env) :
    (isSetter s c = false → setWord lower s c w env = (s, [])) ∧
    ∀ gameId game, sessionOf s c = some (gameId, game) → game.player1 = c →
      setWord lower s c w env =
        ({ s with activeGames := mapSet s.activeGames gameId <|
            { game with secretWord := some (lower (trim w)), startTime := some env.now } },
         [Effect.ioTo gameId (Payload.gameStarted
            "Game started! Player 2 has 3 minutes to guess the word.")]) :=
  ⟨setWord_of_not_setter lower s c w env,
   fun gameId game h hp => setWord_of_setter lower s c w env gameId game h hp⟩

/-- C4, amended, on the playing state: a `set-word` from the guesser `a` changes
nothing. -/
theorem c4_set_word_witness :
    isSetter statePlaying "a" = false ∧
    setWord asciiLower statePlaying "a" "Tiger" (envAt 9000 true) = (statePlaying, []) :=
  ⟨by decide,
   (c4_set_word asciiLower statePlaying "a" "Tiger" (envAt 9000 true)).1 (by decide)⟩

theorem mapSet_mapSet {V : Type} (m : List (String × V)) (k : String) (v v2 : V) :
    mapSet (mapSet m k v) k v2 = mapSet m k v2 := by
  induction m with
  | nil => simp [mapSet]
  | cons p rest ih =>
    obtain ⟨k', v'⟩ := p
    by_cases h : k' = k
    · simp [mapSet, h]
    · simp [mapSet, h, ih]

theorem cleanupGame_of_get (s : ServerState) (gameId : String) (game : Game)
    (h : mapGet s.activeGames gameId = some game) :
    cleanupGame s gameId =
      { s with
        playerToGame := mapDelete (mapDelete s.playerToGame game.player1) game.player2
        activeGames := mapDelete s.activeGames gameId } := by
  simp [cleanupGame, h]

theorem cleanupGame_torn_down (s : ServerState) (gameId : String) (game : Game)
    (h : mapGet s.activeGames gameId = some game) :
    mapGet (cleanupGame s gameId).activeGames gameId = none ∧
    mapGet (cleanupGame s gameId).playerToGame game.player1 = none ∧
    mapGet (cleanupGame s gameId).playerToGame game.player2 = none := by
  rw [cleanupGame_of_get s gameId game h]
  exact ⟨mapGet_mapDelete_self _ _,
    mapGet_mapDelete_of_none _ _ _ (mapGet_mapDelete_self _ _), mapGet_mapDelete_self _ _⟩

theorem makeGuess_of_not_guesser (lower : String → String) (s : ServerState) (c g : String)
    (env : Env) (h : isGuesser s c = false) : makeGuess lower s c g env = (s, []) := by
  unfold isGuesser sessionOf at h
  unfold makeGuess
  dsimp only
  repeat' split
  all_goals first
    | rfl
    | (simp_all)

theorem makeGuess_correct (lower : String → String) (s : ServerState) (c g : String)
    (env : Env) (gameId : String) (game : Game) (h : sessionOf s c = some (gameId, game))
    (hp : game.player2 = c) (hw : some (lower (trim g)) = game.secretWord) :
    makeGuess lower s c g env =
      (cleanupGame s gameId,
       [Effect.ioTo gameId (Payload.gameEnded true game.secretWord
          (Int.fdiv (env.now - game.startTime.getD 0) 1000))]) := by
  obtain ⟨h1, h2, h3⟩ := sessionOf_eq_some h
  simp [makeGuess, h1, h2, h3, hp, hw]

theorem makeGuess_wrong (lower : String → String) (s : ServerState) (c g : String)
    (env : Env) (gameId : String) (game : Game) (h : sessionOf s c = some (gameId, game))
    (hp : game.player2 = c) (hw : some (lower (trim g)) ≠ game.secretWord) :
    makeGuess lower s c g env =
      ({ s with activeGames := mapSet s.activeGames gameId <|
          { game with messages := game.messages ++
              [{ type := "player2", text := "Is it \"" ++ g ++ "\"?", timestamp := env.now },
               { type := "player1", text := "No", timestamp := env.now2 }] } },
       [Effect.ioTo gameId (Payload.newMessage
          { type := "player2", text := "Is it \"" ++ g ++ "\"?", timestamp := env.now }),
        Effect.ioTo gameId (Payload.newMessage
          { type := "player1", text := "No", timestamp := env.now2 })]) := by
  obtain ⟨h1, h2, h3⟩ := sessionOf_eq_some h
  simp [makeGuess, h1, h2, h3, hp, hw]

theorem sessionOf_update (s : ServerState) (c gameId : String) (game game1 : Game)
    (h : sessionOf s c = some (gameId, game)) :
    sessionOf { s with activeGames := mapSet s.activeGames gameId game1 } c =
      some (gameId, game1) := by
  obtain ⟨h1, h2, _⟩ := sessionOf_eq_some h
  simp [sessionOf, h1, h2, mapGet_mapSet_self]

/-! ## C5: guess round trip -/

/-- C5: in a session in Setup, after the setter's `set-word(w)` a `make-guess(g)` from
the guesser emits `game-ended` with `won: true` exactly when
`lower (trim g) = lower (trim w)`.  In that case the single emission goes to the game
room (joined by both players at match time), reports the word `lower (trim w)` and
`floor ((now - startTime) / 1000)`, and the game and both directory entries are gone.
Otherwise the only emissions are the two `new-message` events, the game stays in
`activeGames` and its transcript is the old one followed by exactly two entries. -/
theorem c5_guess_round_trip (lower : String → String) (s : ServerState)
    (p1 p2 gameId : String) (game : Game) (w g : String) (env1 env2 : Env)
    (h1 : sessionOf s p1 = some (gameId, game)) (h2 : sessionOf s p2 = some (gameId, game))
    (hp1 : game.player1 = p1) (hp2 : game.player2 = p2) (_hsetup : game.secretWord = none) :
    (emitsWin (makeGuess lower (setWord lower s p1 w env1).1 p2 g env2).2 = true ↔
      lower (trim g) = lower (trim w)) ∧
    (lower (trim g) = lower (trim w) →
      (makeGuess lower (setWord lower s p1 w env1).1 p2 g env2).2 =
        [Effect.ioTo gameId (Payload.gameEnded true (some (lower (trim w)))
          (Int.fdiv (env2.now - env1.now) 1000))] ∧
      mapGet (makeGuess lower (setWord lower s p1 w env1).1 p2 g env2).1.activeGames gameId =
        none ∧
      mapGet (makeGuess lower (setWord lower s p1 w env1).1 p2 g env2).1.playerToGame p1 =
        none ∧
      mapGet (makeGuess lower (setWord lower s p1 w env1).1 p2 g env2).1.playerToGame p2 =
        none) ∧
    (lower (trim g) ≠ lower (trim w) →
      (makeGuess lower (setWord lower s p1 w env1).1 p2 g env2).2 =
        [Effect.ioTo gameId (Payload.newMessage
          { type := "player2", text := "Is it \"" ++ g ++ "\"?", timestamp := env2.now }),
         Effect.ioTo gameId (Payload.newMessage
          { type := "player1", text := "No", timestamp := env2.now2 })] ∧
      mapGet (makeGuess lower (setWord lower s p1 w env1).1 p2 g env2).1.activeGames gameId =
        some { game with
          secretWord := some (lower (trim w))
          startTime := some env1.now
          messages := game.messages ++
            [{ type := "player2", text := "Is it \"" ++ g ++ "\"?", timestamp := env2.now },
             { type := "player1", text := "No", timestamp := env2.now2 }] }) := by
  subst hp1
  subst hp2
  have hs := setWord_of_setter lower s _ w env1 gameId game h1 rfl
  have hsess := sessionOf_update s _ gameId game
    { game with secretWord := some (lower (trim w)), startTime := some env1.now } h2
  rw [hs]
  dsimp only
  by_cases hw : lower (trim g) = lower (trim w)
  · have hm := makeGuess_correct lower _ _ g env2 gameId _ hsess rfl (by simp [hw])
    have ht := cleanupGame_torn_down
      { s with activeGames := mapSet s.activeGames gameId <|
          { game with secretWord := some (lower (trim w)), startTime := some env1.now } }
      gameId _ (mapGet_mapSet_self _ _ _)
    rw [hm]
    dsimp only at ht ⊢
    refine ⟨?_, ?_, ?_⟩
    · simp [emitsWin, hw]
    · intro _
      exact ⟨by simp, ht.1, ht.2.1, ht.2.2⟩
    · intro hne
      exact absurd hw hne
  · have hm := makeGuess_wrong lower _ _ g env2 gameId _ hsess rfl (by simp [hw])
    rw [hm]
    dsimp only
    refine ⟨?_, ?_, ?_⟩
    · simp [emitsWin, hw]
    · intro he
      exact absurd he hw
    · intro _
      exact ⟨rfl, by rw [mapGet_mapSet_self]⟩

/-- C5 on the example of the specification: the word `Elephant` is committed at clock
3000 and the guess `elephant` arrives at clock 65500; the guesser wins, the reported
word is `elephant` and the reported time is 62 seconds. -/
theorem c5_guess_round_trip_witness :
    sessionOf stateSetup "b" = some ("game-2000", gameSetup) ∧
    sessionOf stateSetup "a" = some ("game-2000", gameSetup) ∧
    asciiLower (trim "Elephant") = "elephant" ∧
    Int.fdiv ((envAt 65500 true).now - (envAt 3000 true).now) 1000 = 62 ∧
    (makeGuess asciiLower (setWord asciiLower stateSetup "b" "Elephant" (envAt 3000 true)).1
        "a" "elephant" (envAt 65500 true)).2 =
      [Effect.ioTo "game-2000" (Payload.gameEnded true (some (asciiLower (trim "Elephant")))
        (Int.fdiv ((envAt 65500 true).now - (envAt 3000 true).now) 1000))] :=
  ⟨by decide, by decide, by decide, by decide,
   ((c5_guess_round_trip asciiLower stateSetup "b" "a" "game-2000" gameSetup "Elephant"
      "elephant" (envAt 3000 true) (envAt 65500 true) (by decide) (by decide) rfl rfl rfl).2.1
      (by decide)).1⟩

theorem timeExpired_of_session (s : ServerState) (c gameId : String) (game : Game)
    (h : sessionOf s c = some (gameId, game)) :
    timeExpired s c =
      (cleanupGame s gameId, [Effect.ioTo gameId (Payload.gameEnded false game.secretWord 180)]) := by
  obtain ⟨h1, h2, h3⟩ := sessionOf_eq_some h
  simp [timeExpired, h1, h2, h3]

theorem disconnect_of_session (s : ServerState) (c gameId : String) (game : Game)
    (h : sessionOf s c = some (gameId, game)) :
    disconnect s c =
      (cleanupGame { s with waitingPlayers := s.waitingPlayers.erase c } gameId,
       [Effect.ioTo (if game.player1 = c then game.player2 else game.player1)
          Payload.opponentDisconnected]) := by
  obtain ⟨h1, h2, h3⟩ := sessionOf_eq_some h
  simp [disconnect, h1, h2, h3]

theorem step_of_no_session (lower : String → String) (s : ServerState) (j : Input)
    (hq : j.socket ∉ s.waitingPlayers) (hd : mapGet s.playerToGame j.socket = none)
    (hj : j.event ≠ Event.findMatch) : step lower s j = (s, []) := by
  obtain ⟨c, e, env⟩ := j
  dsimp only at hq hd hj
  cases e with
  | findMatch => exact absurd rfl hj
  | setWord w => simp [step, setWord, hd]
  | askQuestion q => simp [step, askQuestion, hd]
  | answer a => simp [step, answer, hd]
  | makeGuess g => simp [step, makeGuess, hd]
  | timeExpired => simp [step, timeExpired, hd]
  | disconnect => simp [step, disconnect, hd, List.erase_of_not_mem hq]

theorem step_shrinks (lower : String → String) (s : ServerState) (i : Input)
    (hi : i.event ≠ Event.findMatch) : Shrinks s (step lower s i).1 := by
  unfold step
  split
  · rename_i he
    exact absurd he hi
  · exact setWord_shrinks _ _ _ _ _
  · exact askQuestion_shrinks _ _ _ _
  · exact answer_shrinks _ _ _ _
  · exact makeGuess_shrinks _ _ _ _ _
  · exact timeExpired_shrinks _ _
  · exact disconnect_shrinks _ _

theorem findMatch_keeps_unmatched (s : ServerState) (q c : String) (env : Env)
    (hne : q ≠ c) (hq : c ∉ s.waitingPlayers) (hd : mapGet s.playerToGame c = none) :
    c ∉ (findMatch s q env).1.waitingPlayers ∧
      mapGet (findMatch s q env).1.playerToGame c = none := by
  unfold findMatch
  split
  · rename_i opponent rest hw
    dsimp only
    rw [hw] at hq
    have ho : opponent ≠ c := fun he => hq (by simp [he])
    refine ⟨fun hm => hq (List.mem_cons_of_mem _ hm), ?_⟩
    cases env.isPlayer1
    · simp only [Bool.false_eq_true, if_false]
      rw [mapGet_mapSet_ne _ _ _ _ hne, mapGet_mapSet_ne _ _ _ _ ho]
      exact hd
    · simp only [if_true]
      rw [mapGet_mapSet_ne _ _ _ _ ho, mapGet_mapSet_ne _ _ _ _ hne]
      exact hd
  · rename_i hw
    dsimp only
    refine ⟨?_, hd⟩
    simp only [hw, List.nil_append, List.mem_singleton]
    exact fun he => hne he.symm

theorem run_keeps_unmatched (lower : String → String) (c : String) (rest : List Input) :
    ∀ s : ServerState, c ∉ s.waitingPlayers → mapGet s.playerToGame c = none →
      (∀ r ∈ rest, r.event = Event.findMatch → r.socket ≠ c) →
      c ∉ (run lower s rest).waitingPlayers ∧ mapGet (run lower s rest).playerToGame c = none := by
  induction rest with
  | nil => intro s hq hd _; exact ⟨hq, hd⟩
  | cons r rest ih =>
    intro s hq hd hr
    have hrest : ∀ x ∈ rest, x.event = Event.findMatch → x.socket ≠ c :=
      fun x hx => hr x (List.mem_cons_of_mem _ hx)
    by_cases he : r.event = Event.findMatch
    · have hne := hr r (List.mem_cons_self _ _) he
      have hs : (step lower s r).1 = (findMatch s r.socket r.env).1 := by
        simp [step, he]
      have hk := findMatch_keeps_unmatched s r.socket c r.env hne hq hd
      rw [← hs] at hk
      exact ih _ hk.1 hk.2 hrest
    · have hk := step_shrinks lower s r he
      exact ih _ (fun hm => hq (hk.2.1 c hm)) (hk.2.2 c hd) hrest

theorem step_ending_eq (lower : String → String) (s : ServerState) (gameId : String)
    (game : Game) (i : Input)
    (h1 : sessionOf s game.player1 = some (gameId, game))
    (h2 : sessionOf s game.player2 = some (gameId, game))
    (he : isEnding lower game i = true) :
    (step lower s i).1 = cleanupGame s gameId ∨
    (step lower s i).1 =
      cleanupGame { s with waitingPlayers := s.waitingPlayers.erase i.socket } gameId := by
  obtain ⟨c, e, env⟩ := i
  cases e with
  | findMatch => simp [isEnding] at he
  | setWord w => simp [isEnding] at he
  | askQuestion q => simp [isEnding] at he
  | answer a => simp [isEnding] at he
  | makeGuess g =>
    simp only [isEnding, Bool.and_eq_true, decide_eq_true_eq] at he
    obtain ⟨hc, hw⟩ := he
    subst hc
    left
    simp only [step]
    rw [makeGuess_correct lower s _ g env gameId game h2 rfl hw]
  | timeExpired =>
    simp only [isEnding, Bool.or_eq_true, decide_eq_true_eq] at he
    left
    simp only [step]
    rcases he with hc | hc
    · subst hc
      rw [timeExpired_of_session s _ gameId game h1]
    · subst hc
      rw [timeExpired_of_session s _ gameId game h2]
  | disconnect =>
    simp only [isEnding, Bool.or_eq_true, decide_eq_true_eq] at he
    right
    simp only [step]
    rcases he with hc | hc
    · subst hc
      rw [disconnect_of_session s _ gameId game h1]
    · subst hc
      rw [disconnect_of_session s _ gameId game h2]

/-! ## C6: teardown -/

/-- C6, as stated, fails: in `stateRejoin` the players `b` and `a` are both mapped to
`game-2000` and `a` is also queued; after `time-expired` from `a` has torn the session
down, a `disconnect` from `a` still changes the state (it takes `a` out of the queue). -/
theorem c6_disconnect_after_teardown_changes_queue :
    sessionOf stateRejoin "b" = some ("game-2000", gameSetup) ∧
    sessionOf stateRejoin "a" = some ("game-2000", gameSetup) ∧
    (step asciiLower stateRejoin ⟨"a", Event.timeExpired, envAt 9000 true⟩).1.waitingPlayers =
      ["a"] ∧
    (step asciiLower (step asciiLower stateRejoin ⟨"a", Event.timeExpired, envAt 9000 true⟩).1
      ⟨"a", Event.disconnect, envAt 9500 true⟩).1.waitingPlayers = [] := by
  decide

/-- C6, amended: when a game whose two players are mapped to it ends by a matching
guess, a `time-expired` or a player's `disconnect`, `activeGames` has no entry for it
and `playerToGame` none for either player; and for a former player that is not in the
waiting queue at that point, every later `set-word`, `ask-question`, `answer`,
`make-guess`, `time-expired` or `disconnect` it sends, after any events in which it
sent no `find-match`, leaves the state unchanged and emits nothing. -/
theorem c6_teardown (lower : String → String) (s : ServerState) (p1 p2 gameId : String)
    (game : Game) (i : Input)
    (h1 : sessionOf s p1 = some (gameId, game)) (h2 : sessionOf s p2 = some (gameId, game))
    (hp1 : game.player1 = p1) (hp2 : game.player2 = p2)
    (he : isEnding lower game i = true) :
    mapGet (step lower s i).1.activeGames gameId = none ∧
    mapGet (step lower s i).1.playerToGame p1 = none ∧
    mapGet (step lower s i).1.playerToGame p2 = none ∧
    ∀ (rest : List Input) (j : Input), (j.socket = p1 ∨ j.socket = p2) →
      j.socket ∉ (step lower s i).1.waitingPlayers →
      (∀ r ∈ rest, r.event = Event.findMatch → r.socket ≠ j.socket) →
      j.event ≠ Event.findMatch →
      step lower (run lower (step lower s i).1 rest) j =
        (run lower (step lower s i).1 rest, []) := by
  subst hp1
  subst hp2
  have hg := (sessionOf_eq_some h1).2.2
  have torn : mapGet (step lower s i).1.activeGames gameId = none ∧
      mapGet (step lower s i).1.playerToGame game.player1 = none ∧
      mapGet (step lower s i).1.playerToGame game.player2 = none := by
    rcases step_ending_eq lower s gameId game i h1 h2 he with hs | hs
    · rw [hs]
      exact cleanupGame_torn_down s gameId game hg
    · rw [hs]
      exact cleanupGame_torn_down _ gameId game hg
  refine ⟨torn.1, torn.2.1, torn.2.2, ?_⟩
  intro rest j hj hq hr hne
  have hd : mapGet (step lower s i).1.playerToGame j.socket = none := by
    rcases hj with hj | hj
    · rw [hj]; exact torn.2.1
    · rw [hj]; exact torn.2.2
  have hk := run_keeps_unmatched lower j.socket rest _ hq hd hr
  exact step_of_no_session lower _ j hk.1 hk.2 hne

/-- C6, amended, on the playing state: the guesser `a` guesses the word, the session is
gone, and a `time-expired` that `a` sends after `c` has queued changes nothing. -/
theorem c6_teardown_witness :
    sessionOf statePlaying "b" = some ("game-2000", gamePlaying) ∧
    isEnding asciiLower gamePlaying ⟨"a", Event.makeGuess "ELEPHANT ", envAt 5000 true⟩ = true ∧
    mapGet (step asciiLower statePlaying
      ⟨"a", Event.makeGuess "ELEPHANT ", envAt 5000 true⟩).1.activeGames "game-2000" = none ∧
    step asciiLower
        (run asciiLower (step asciiLower statePlaying
          ⟨"a", Event.makeGuess "ELEPHANT ", envAt 5000 true⟩).1
          [⟨"c", Event.findMatch, envAt 6000 true⟩])
        ⟨"a", Event.timeExpired, envAt 7000 true⟩ =
      (run asciiLower (step asciiLower statePlaying
          ⟨"a", Event.makeGuess "ELEPHANT ", envAt 5000 true⟩).1
          [⟨"c", Event.findMatch, envAt 6000 true⟩], []) :=
  ⟨by decide, by decide,
   (c6_teardown asciiLower statePlaying "b" "a" "game-2000" gamePlaying
      ⟨"a", Event.makeGuess "ELEPHANT ", envAt 5000 true⟩
      (by decide) (by decide) rfl rfl (by decide)).1,
   (c6_teardown asciiLower statePlaying "b" "a" "game-2000" gamePlaying
      ⟨"a", Event.makeGuess "ELEPHANT ", envAt 5000 true⟩
      (by decide) (by decide) rfl rfl (by decide)).2.2.2
      [⟨"c", Event.findMatch, envAt 6000 true⟩] ⟨"a", Event.timeExpired, envAt 7000 true⟩
      (Or.inr rfl) (by decide) (by decide) (by decide)⟩

/-! ## C7: matchmaking scenario -/

/-- C7: from the empty state, `find-match` from `a` queues `a` alone and emits only
`waiting` to `a`; the following `find-match` from `b ≠ a` empties the queue, creates
exactly one game (in Setup) whose players are `a` and `b`, maps both to its id, lets
both join the game room and emits one `match-found` to each with the same game id and
the recipient's own role: `b` is `player1` when the coin says so, `a` otherwise. -/
theorem c7_matchmaking (lower : String → String) (a b : String) (env1 env2 : Env)
    (hab : a ≠ b) :
    step lower ServerState.empty ⟨a, Event.findMatch, env1⟩ =
      ({ waitingPlayers := [a], activeGames := [], playerToGame := [] },
       [Effect.socketEmit a Payload.waiting]) ∧
    (env2.isPlayer1 = true →
      step lower (step lower ServerState.empty ⟨a, Event.findMatch, env1⟩).1
          ⟨b, Event.findMatch, env2⟩ =
        ({ waitingPlayers := []
           activeGames := [("game-" ++ toString env2.now,
             { id := "game-" ++ toString env2.now, player1 := b, player2 := a,
               secretWord := none, messages := [], startTime := none,
               pendingQuestion := none })]
           playerToGame := [(b, "game-" ++ toString env2.now),
             (a, "game-" ++ toString env2.now)] },
         [Effect.join b ("game-" ++ toString env2.now),
          Effect.join a ("game-" ++ toString env2.now),
          Effect.ioTo b (Payload.matchFound ("game-" ++ toString env2.now) "player1" a),
          Effect.ioTo a (Payload.matchFound ("game-" ++ toString env2.now) "player2" b)])) ∧
    (env2.isPlayer1 = false →
      step lower (step lower ServerState.empty ⟨a, Event.findMatch, env1⟩).1
          ⟨b, Event.findMatch, env2⟩ =
        ({ waitingPlayers := []
           activeGames := [("game-" ++ toString env2.now,
             { id := "game-" ++ toString env2.now, player1 := a, player2 := b,
               secretWord := none, messages := [], startTime := none,
               pendingQuestion := none })]
           playerToGame := [(a, "game-" ++ toString env2.now),
             (b, "game-" ++ toString env2.now)] },
         [Effect.join a ("game-" ++ toString env2.now),
          Effect.join b ("game-" ++ toString env2.now),
          Effect.ioTo a (Payload.matchFound ("game-" ++ toString env2.now) "player1" b),
          Effect.ioTo b (Payload.matchFound ("game-" ++ toString env2.now) "player2" a)])) := by
  refine ⟨rfl, ?_, ?_⟩
  · intro hcoin
    simp [step, findMatch, ServerState.empty, mapSet, hcoin, hab.symm]
  · intro hcoin
    simp [step, findMatch, ServerState.empty, mapSet, hcoin, hab]

/-- C7 on the sockets `a` and `b` with the coin making `b` the setter. -/
theorem c7_matchmaking_witness :
    step asciiLower (step asciiLower ServerState.empty ⟨"a", Event.findMatch, envAt 1000 true⟩).1
        ⟨"b", Event.findMatch, envAt 2000 true⟩ =
      ({ waitingPlayers := []
         activeGames := [("game-" ++ toString (envAt 2000 true).now,
           { id := "game-" ++ toString (envAt 2000 true).now, player1 := "b", player2 := "a",
             secretWord := none, messages := [], startTime := none,
             pendingQuestion := none })]
         playerToGame := [("b", "game-" ++ toString (envAt 2000 true).now),
           ("a", "game-" ++ toString (envAt 2000 true).now)] },
       [Effect.join "b" ("game-" ++ toString (envAt 2000 true).now),
        Effect.join "a" ("game-" ++ toString (envAt 2000 true).now),
        Effect.ioTo "b"
          (Payload.matchFound ("game-" ++ toString (envAt 2000 true).now) "player1" "a"),
        Effect.ioTo "a"
          (Payload.matchFound ("game-" ++ toString (envAt 2000 true).now) "player2" "b")]) :=
  (c7_matchmaking asciiLower "a" "b" (envAt 1000 true) (envAt 2000 true) (by decide)).2.1 rfl

theorem answer_of_not_pending (s : ServerState) (c a : String) (env : Env) (gameId : String)
    (game : Game) (h : sessionOf s c = some (gameId, game))
    (hp : pendingTruthy game = false) : answer s c a env = (s, []) := by
  obtain ⟨h1, h2, h3⟩ := sessionOf_eq_some h
  simp [answer, h1, h2, h3, hp]

theorem answer_of_not_setter (s : ServerState) (c a : String) (env : Env)
    (h : isSetter s c = false) : answer s c a env = (s, []) := by
  unfold isSetter sessionOf at h
  unfold answer
  repeat' split
  all_goals first
    | rfl
    | (simp_all)

theorem answer_of_pending (s : ServerState) (c a : String) (env : Env) (gameId : String)
    (game : Game) (h : sessionOf s c = some (gameId, game)) (hp : game.player1 = c)
    (hq : pendingTruthy game = true) :
    answer s c a env =
      ({ s with activeGames := mapSet s.activeGames gameId <|
          { game with
            messages := game.messages ++ [{ type := "player1", text := a, timestamp := env.now }]
            pendingQuestion := none } },
       [Effect.ioTo gameId
          (Payload.newMessage { type := "player1", text := a, timestamp := env.now }),
        Effect.ioTo game.player2 Payload.answerReceived]) := by
  obtain ⟨h1, h2, h3⟩ := sessionOf_eq_some h
  simp [answer, h1, h2, h3, hp, hq]

/-! ## C8: ask/answer alternation -/

/-- C8, as stated for any string, fails on the empty question: the guesser's
`ask-question("")` is recorded in the transcript, but the stored `pendingQuestion` is
the empty string, which the `answer` handler takes for "no question", so the setter's
answer is dropped. -/
theorem c8_empty_question_cannot_be_answered :
    (mapGet (askQuestion statePlaying "a" "" (envAt 4000 true)).1.activeGames "game-2000").map
      (fun g => (g.messages, g.pendingQuestion)) =
      some ([{ type := "player2", text := "", timestamp := 4000 }], some "") ∧
    answer (askQuestion statePlaying "a" "" (envAt 4000 true)).1 "b" "Yes" (envAt 5000 true) =
      ((askQuestion statePlaying "a" "" (envAt 4000 true)).1, []) := by
  decide

/-- C8, amended to non-empty questions: in an active session with no question pending,
after the guesser's `ask-question(q)` with `q ≠ ""` the question is pending, and the
setter's `answer(a)` is accepted: the transcript is the old one followed by the
guesser's message with `q` and the setter's message with `a`, `pendingQuestion` is
cleared, `new-message` goes to the game room and `answer-received` to the guesser.  An
`answer` from the setter while no question is pending (before the ask, or once more
after the answer) is a no-op. -/
theorem c8_ask_answer (s : ServerState) (p1 p2 gameId : String) (game : Game)
    (q a : String) (env1 env2 env3 : Env)
    (h1 : sessionOf s p1 = some (gameId, game)) (h2 : sessionOf s p2 = some (gameId, game))
    (hp1 : game.player1 = p1) (hp2 : game.player2 = p2)
    (_hactive : game.secretWord ≠ none) (hpend : game.pendingQuestion = none)
    (hq : q ≠ "") :
    (mapGet (askQuestion s p2 q env1).1.activeGames gameId).map
      (fun g => (g.messages, g.pendingQuestion)) =
      some (game.messages ++ [{ type := "player2", text := q, timestamp := env1.now }],
        some q) ∧
    answer (askQuestion s p2 q env1).1 p1 a env2 =
      ({ s with activeGames := mapSet s.activeGames gameId <|
          { game with
            messages := game.messages ++
              [{ type := "player2", text := q, timestamp := env1.now },
               { type := "player1", text := a, timestamp := env2.now }]
            pendingQuestion := none } },
       [Effect.ioTo gameId
          (Payload.newMessage { type := "player1", text := a, timestamp := env2.now }),
        Effect.ioTo p2 Payload.answerReceived]) ∧
    answer s p1 a env3 = (s, []) ∧
    answer (answer (askQuestion s p2 q env1).1 p1 a env2).1 p1 a env3 =
      ((answer (askQuestion s p2 q env1).1 p1 a env2).1, []) := by
  subst hp1
  subst hp2
  have hask := askQuestion_of_guesser s _ q env1 gameId game h2 rfl
  have hsess := sessionOf_update s game.player1 gameId game
    { game with
      messages := game.messages ++ [{ type := "player2", text := q, timestamp := env1.now }]
      pendingQuestion := some q } h1
  have hans := answer_of_pending _ _ a env2 gameId _ hsess rfl
    (by simp [pendingTruthy, truthy, hq])
  have hsess2 := sessionOf_update _ game.player1 gameId _
    { game with
      messages := game.messages ++ [{ type := "player2", text := q, timestamp := env1.now }] ++
        [{ type := "player1", text := a, timestamp := env2.now }]
      pendingQuestion := none } hsess
  rw [hask]
  dsimp only at hans hsess2 ⊢
  rw [hans]
  dsimp only
  refine ⟨by rw [mapGet_mapSet_self]; rfl, ?_, ?_, ?_⟩
  · simp only [mapSet_mapSet, List.append_assoc, List.singleton_append]
  · exact answer_of_not_pending s _ a env3 gameId game h1 (by simp [pendingTruthy, hpend])
  · exact answer_of_not_pending _ _ a env3 gameId _ hsess2 (by simp [pendingTruthy])

/-- C8, amended, on the playing state: the guesser `a` asks, the setter `b` answers
`Yes`, and the answer is accepted. -/
theorem c8_ask_answer_witness :
    sessionOf statePlaying "b" = some ("game-2000", gamePlaying) ∧
    sessionOf statePlaying "a" = some ("game-2000", gamePlaying) ∧
    (answer (askQuestion statePlaying "a" "Is it an animal?" (envAt 4000 true)).1 "b" "Yes"
        (envAt 5000 true)).2 =
      [Effect.ioTo "game-2000"
          (Payload.newMessage
            { type := "player1", text := "Yes", timestamp := (envAt 5000 true).now }),
       Effect.ioTo "a" Payload.answerReceived] :=
  ⟨by decide, by decide,
   congrArg Prod.snd
    (c8_ask_answer statePlaying "b" "a" "game-2000" gamePlaying "Is it an animal?" "Yes"
      (envAt 4000 true) (envAt 5000 true) (envAt 6000 true) (by decide) (by decide) rfl rfl
      (by decide) rfl (by decide)).2.1⟩

theorem mapSet_keys {V : Type} (m : List (String × V)) (k : String) (v v2 : V)
    (h : mapGet m k = some v) : (mapSet m k v2).map Prod.fst = m.map Prod.fst := by
  induction m with
  | nil => simp [mapGet] at h
  | cons p rest ih =>
    obtain ⟨k', v'⟩ := p
    by_cases hk : k' = k
    · simp [mapSet, hk]
    · simp only [mapGet, hk, if_false] at h
      simp [mapSet, hk, ih h]

theorem isGuesser_of_session (s : ServerState) (c gameId : String) (game : Game)
    (h : sessionOf s c = some (gameId, game)) : isGuesser s c = decide (game.player2 = c) := by
  simp [isGuesser, h]

theorem isSetter_of_session (s : ServerState) (c gameId : String) (game : Game)
    (h : sessionOf s c = some (gameId, game)) : isSetter s c = decide (game.player1 = c) := by
  simp [isSetter, h]

/-! ## C9: events during Setup -/

/-- C9, as stated, fails: in `stateSetup` no word is committed, yet a `make-guess` from
the guesser `a` appends two transcript entries and broadcasts them, and a
`time-expired` from the setter `b` ends the session with `game-ended` and empties the
directory. -/
theorem c9_setup_guess_and_timeout_processed :
    sessionOf stateSetup "a" = some ("game-2000", gameSetup) ∧
    (makeGuess asciiLower stateSetup "a" "cat" (envAt 3000 true)).2 =
      [Effect.ioTo "game-2000" (Payload.newMessage
        { type := "player2", text := "Is it \"cat\"?", timestamp := 3000 }),
       Effect.ioTo "game-2000" (Payload.newMessage
        { type := "player1", text := "No", timestamp := 3000 })] ∧
    timeExpired stateSetup "b" =
      (ServerState.empty, [Effect.ioTo "game-2000" (Payload.gameEnded false none 180)]) := by
  decide

/-- C9, amended: in a session whose word is not committed, with distinct players,
`ask-question` and `make-guess` from the setter and `answer` from the guesser are
no-ops, and so is `answer` from the setter while no question is pending.  The server
does not test whether the word is committed: `make-guess` from the guesser is handled
as a failed guess (two transcript entries, two `new-message`), `time-expired` from
either player ends the session with `game-ended` (`won: false`, no word, 180) and tears
it down, and `ask-question` from the guesser with no question pending is recorded and
broadcast. -/
theorem c9_setup_events (lower : String → String) (s : ServerState) (p1 p2 gameId : String)
    (game : Game) (t : String) (env : Env)
    (h1 : sessionOf s p1 = some (gameId, game)) (h2 : sessionOf s p2 = some (gameId, game))
    (hp1 : game.player1 = p1) (hp2 : game.player2 = p2) (hne : p1 ≠ p2)
    (hsetup : game.secretWord = none) :
    askQuestion s p1 t env = (s, []) ∧
    makeGuess lower s p1 t env = (s, []) ∧
    answer s p2 t env = (s, []) ∧
    (game.pendingQuestion = none → answer s p1 t env = (s, [])) ∧
    makeGuess lower s p2 t env =
      ({ s with activeGames := mapSet s.activeGames gameId <|
          { game with messages := game.messages ++
              [{ type := "player2", text := "Is it \"" ++ t ++ "\"?", timestamp := env.now },
               { type := "player1", text := "No", timestamp := env.now2 }] } },
       [Effect.ioTo gameId (Payload.newMessage
          { type := "player2", text := "Is it \"" ++ t ++ "\"?", timestamp := env.now }),
        Effect.ioTo gameId (Payload.newMessage
          { type := "player1", text := "No", timestamp := env.now2 })]) ∧
    timeExpired s p1 =
      (cleanupGame s gameId, [Effect.ioTo gameId (Payload.gameEnded false none 180)]) ∧
    timeExpired s p2 =
      (cleanupGame s gameId, [Effect.ioTo gameId (Payload.gameEnded false none 180)]) ∧
    mapGet (cleanupGame s gameId).activeGames gameId = none ∧
    (game.pendingQuestion = none →
      askQuestion s p2 t env =
        ({ s with activeGames := mapSet s.activeGames gameId <|
            { game with
              messages := game.messages ++
                [{ type := "player2", text := t, timestamp := env.now }]
              pendingQuestion := some t } },
         [Effect.ioTo gameId
            (Payload.newMessage { type := "player2", text := t, timestamp := env.now }),
          Effect.ioTo p1 (Payload.questionPending t)])) := by
  subst hp1
  subst hp2
  have hg1 : isGuesser s game.player1 = false := by
    rw [isGuesser_of_session s _ gameId game h1]
    exact decide_eq_false (fun he => hne he.symm)
  have hs2 : isSetter s game.player2 = false := by
    rw [isSetter_of_session s _ gameId game h2]
    exact decide_eq_false hne
  have hx1 := timeExpired_of_session s _ gameId game h1
  have hx2 := timeExpired_of_session s _ gameId game h2
  rw [hsetup] at hx1 hx2
  refine ⟨askQuestion_of_not_guesser s _ t env hg1, makeGuess_of_not_guesser lower s _ t env hg1,
    answer_of_not_setter s _ t env hs2, ?_, ?_, hx1, hx2,
    (cleanupGame_torn_down s gameId game (sessionOf_eq_some h1).2.2).1, ?_⟩
  · intro hp
    exact answer_of_not_pending s _ t env gameId game h1 (by simp [pendingTruthy, hp])
  · exact makeGuess_wrong lower s _ t env gameId game h2 rfl (by simp [hsetup])
  · intro _
    exact askQuestion_of_guesser s _ t env gameId game h2 rfl

/-- C9, amended, on `stateSetup`: a `make-guess` from the setter `b` is a no-op. -/
theorem c9_setup_events_witness :
    sessionOf stateSetup "b" = some ("game-2000", gameSetup) ∧
    makeGuess asciiLower stateSetup "b" "cat" (envAt 3000 true) = (stateSetup, []) :=
  ⟨by decide,
   (c9_setup_events asciiLower stateSetup "b" "a" "game-2000" gameSetup "cat" (envAt 3000 true)
      (by decide) (by decide) rfl rfl (by decide) rfl).2.1⟩

/-! ## C10: a failed guess does not consume the turn -/

/-- C10: a `make-guess` from the guesser of a directory session whose text does not
match the secret word (in any turn state, word committed or not) leaves the queue and
`playerToGame` unchanged, keeps the keys of `activeGames` and every other game, and
changes the guesser's game only in its transcript, which gains exactly two entries:
first the `player2` message restating the guess as a question, then the `player1`
message `No`.  `pendingQuestion`, `secretWord` and `startTime` keep their values.  The
emissions are the two `new-message` broadcasts to the game room, in that order. -/
theorem c10_failed_guess (lower : String → String) (s : ServerState) (p2 gameId : String)
    (game : Game) (g : String) (env : Env)
    (h2 : sessionOf s p2 = some (gameId, game)) (hp2 : game.player2 = p2)
    (hw : some (lower (trim g)) ≠ game.secretWord) :
    makeGuess lower s p2 g env =
      ({ s with activeGames := mapSet s.activeGames gameId <|
          { game with messages := game.messages ++
              [{ type := "player2", text := "Is it \"" ++ g ++ "\"?", timestamp := env.now },
               { type := "player1", text := "No", timestamp := env.now2 }] } },
       [Effect.ioTo gameId (Payload.newMessage
          { type := "player2", text := "Is it \"" ++ g ++ "\"?", timestamp := env.now }),
        Effect.ioTo gameId (Payload.newMessage
          { type := "player1", text := "No", timestamp := env.now2 })]) ∧
    (makeGuess lower s p2 g env).1.waitingPlayers = s.waitingPlayers ∧
    (makeGuess lower s p2 g env).1.playerToGame = s.playerToGame ∧
    (makeGuess lower s p2 g env).1.activeGames.map Prod.fst = s.activeGames.map Prod.fst ∧
    (∀ k, k ≠ gameId →
      mapGet (makeGuess lower s p2 g env).1.activeGames k = mapGet s.activeGames k) ∧
    mapGet (makeGuess lower s p2 g env).1.activeGames gameId =
      some { id := game.id, player1 := game.player1, player2 := game.player2,
             secretWord := game.secretWord,
             messages := game.messages ++
              [{ type := "player2", text := "Is it \"" ++ g ++ "\"?", timestamp := env.now },
               { type := "player1", text := "No", timestamp := env.now2 }],
             startTime := game.startTime, pendingQuestion := game.pendingQuestion } := by
  have hm := makeGuess_wrong lower s p2 g env gameId game h2 hp2 hw
  have hg := (sessionOf_eq_some h2).2.2
  rw [hm]
  refine ⟨rfl, rfl, rfl, mapSet_keys _ _ _ _ hg, ?_, mapGet_mapSet_self _ _ _⟩
  intro k hk
  exact mapGet_mapSet_ne _ _ _ _ (fun he => hk he.symm)

/-- C10 on `stateAsked`, where a question is pending: the wrong guess `cat` from the
guesser `a` leaves the question pending and adds the two entries. -/
theorem c10_failed_guess_witness :
    sessionOf stateAsked "a" = some ("game-2000", gameAsked) ∧
    mapGet (makeGuess asciiLower stateAsked "a" "cat" (envAt 5000 true)).1.activeGames
        "game-2000" =
      some { id := gameAsked.id, player1 := gameAsked.player1, player2 := gameAsked.player2,
             secretWord := gameAsked.secretWord,
             messages := gameAsked.messages ++
              [{ type := "player2", text := "Is it \"" ++ "cat" ++ "\"?",
                 timestamp := (envAt 5000 true).now },
               { type := "player1", text := "No", timestamp := (envAt 5000 true).now2 }],
             startTime := gameAsked.startTime,
             pendingQuestion := gameAsked.pendingQuestion } :=
  ⟨by decide,
   (c10_failed_guess asciiLower stateAsked "a" "game-2000" gameAsked "cat" (envAt 5000 true)
      (by decide) rfl (by decide)).2.2.2.2.2⟩

/-! ## C11: the waiting queue -/

theorem cleanupGame_waitingPlayers (s : ServerState) (gameId : String) :
    (cleanupGame s gameId).waitingPlayers = s.waitingPlayers := by
  unfold cleanupGame
  split <;> rfl

theorem disconnect_waitingPlayers (s : ServerState) (c : String) :
    (disconnect s c).1.waitingPlayers = s.waitingPlayers.erase c := by
  unfold disconnect
  dsimp only
  repeat' split
  all_goals first
    | rfl
    | exact cleanupGame_waitingPlayers _ _

theorem findMatch_queue_length (s : ServerState) (c : String) (env : Env)
    (h : s.waitingPlayers.length ≤ 1) : (findMatch s c env).1.waitingPlayers.length ≤ 1 := by
  unfold findMatch
  split
  · rename_i opponent rest hw
    rw [hw] at h
    dsimp only
    simp only [List.length_cons] at h
    omega
  · rename_i hw
    simp [hw]

theorem step_queue_length (lower : String → String) (s : ServerState) (i : Input)
    (h : s.waitingPlayers.length ≤ 1) : (step lower s i).1.waitingPlayers.length ≤ 1 := by
  by_cases he : i.event = Event.findMatch
  · have hs : (step lower s i).1 = (findMatch s i.socket i.env).1 := by
      simp [step, he]
    rw [hs]
    exact findMatch_queue_length s _ _ h
  · exact le_trans (step_shrinks lower s i he).1 h

theorem run_queue_length (lower : String → String) (inputs : List Input) :
    ∀ s : ServerState, s.waitingPlayers.length ≤ 1 →
      (run lower s inputs).waitingPlayers.length ≤ 1 := by
  induction inputs with
  | nil => intro s h; exact h
  | cons i rest ih =>
    intro s h
    exact ih _ (step_queue_length lower s i h)

theorem nodup_of_length_le_one (l : List String) (h : l.length ≤ 1) : l.Nodup := by
  cases l with
  | nil => exact List.nodup_nil
  | cons x xs =>
    cases xs with
    | nil => simp
    | cons y ys => simp at h

/-- C11: in every state reached from the empty state by any sequence of events,
whoever sends them and however often, no socket occurs twice in `waitingPlayers` (the
queue never holds more than one socket); and a `disconnect` of `c` in such a state
erases `c` from the queue, leaves the queue as it is when `c` is not in it, and in
either case leaves a queue that does not contain `c`. -/
theorem c11_queue_unique (lower : String → String) (inputs : List Input) (c : String)
    (env : Env) :
    (run lower ServerState.empty inputs).waitingPlayers.Nodup ∧
    (run lower ServerState.empty inputs).waitingPlayers.length ≤ 1 ∧
    (step lower (run lower ServerState.empty inputs) ⟨c, Event.disconnect, env⟩).1.waitingPlayers =
      (run lower ServerState.empty inputs).waitingPlayers.erase c ∧
    (c ∉ (run lower ServerState.empty inputs).waitingPlayers →
      (step lower (run lower ServerState.empty inputs)
        ⟨c, Event.disconnect, env⟩).1.waitingPlayers =
        (run lower ServerState.empty inputs).waitingPlayers) ∧
    c ∉ (step lower (run lower ServerState.empty inputs)
      ⟨c, Event.disconnect, env⟩).1.waitingPlayers := by
  have hlen := run_queue_length lower inputs ServerState.empty (by simp [ServerState.empty])
  have hnd := nodup_of_length_le_one _ hlen
  have hd : (step lower (run lower ServerState.empty inputs)
      ⟨c, Event.disconnect, env⟩).1.waitingPlayers =
      (run lower ServerState.empty inputs).waitingPlayers.erase c := by
    simp only [step]
    exact disconnect_waitingPlayers _ c
  refine ⟨hnd, hlen, hd, ?_, ?_⟩
  · intro hc
    rw [hd, List.erase_of_not_mem hc]
  · rw [hd]
    exact fun hm => (List.Nodup.mem_erase_iff hnd).mp hm |>.1 rfl

/-- C11 on two traces: after `find-match` twice from `a` the queue is empty rather
than `[a, a]`; and in the state where `c` waits while `a` and `b` play, a `disconnect`
of `a`, which is not queued, leaves the queue `[c]` as it is. -/
theorem c11_queue_unique_witness :
    (run asciiLower ServerState.empty traceSelf).waitingPlayers = [] ∧
    "a" ∉ (run asciiLower ServerState.empty traceThird).waitingPlayers ∧
    (step asciiLower (run asciiLower ServerState.empty traceThird)
      ⟨"a", Event.disconnect, envAt 6000 true⟩).1.waitingPlayers =
      (run asciiLower ServerState.empty traceThird).waitingPlayers :=
  ⟨by decide, by decide,
   (c11_queue_unique asciiLower traceThird "a" (envAt 6000 true)).2.2.2.1 (by decide)⟩

end GuessTheWord
